import Mathlib

/-!
Shallow embedding of the `svd` repository's validated data model and codec
fragments, together with theorems settling the specification's claims.

Embedded source files:
* `svd-rs/src/enumeratedvalue.rs` — `EnumeratedValue`, its builder, `validate`,
  `modify_from`, `check_range`;
* `svd-encoder/src/register.rs` — `impl Encode for Register`;
* `svd-parser/src/elementext.rs` — `get_child`, `get_text`,
  `get_child_text_opt`, `get_child_text`.

Machine integers (`u64`) are modelled as `Nat`: the embedded code performs no
arithmetic on them, so overflow never arises.
-/

/-- Validation level (`ValidateLevel` of svd-rs, declared outside the provided
sources). The spec fixes it as a public three-valued enum:
Disabled (skip all checks), Weak (required-field presence only),
Strict (full invariant enforcement). -/
inductive ValidateLevel where
  | Disabled
  | Weak
  | Strict
deriving DecidableEq, Repr

/-- `ValidateLevel::is_disabled`. -/
def ValidateLevel.is_disabled : ValidateLevel → Bool
  | .Disabled => true
  | _ => false

/-- `ValidateLevel::is_strict`. -/
def ValidateLevel.is_strict : ValidateLevel → Bool
  | .Strict => true
  | _ => false

/-- `core::ops::Range<u64>` (half-open range). The field named `end` in Rust
is `stop` here because `end` is a Lean keyword. -/
structure URange where
  start : Nat
  stop : Nat
deriving DecidableEq, Repr

/-- `svd_rs::enumeratedvalue::EnumeratedValue` (enumeratedvalue.rs, lines 7-31). -/
structure EnumeratedValue where
  name : String
  description : Option String
  value : Option Nat
  is_default : Option Bool
deriving DecidableEq, Repr

/-- `svd_rs::enumeratedvalue::Error` (enumeratedvalue.rs, lines 35-45). -/
inductive EnumeratedValueError where
  | AbsentValue
  | ValueAndDefault (v : Option Nat)
  | OutOfRange (v : Nat) (r : URange)
deriving DecidableEq, Repr

/-- `svd_rs::BuildError` (declared outside the provided sources). The spec
fixes the variant used here: `Uninitialized(field_name)` when a required field
is missing at build time. -/
inductive BuildError where
  | Uninit (field : String)
deriving DecidableEq, Repr

/-- `svd_rs::NameError`. Modelled from the spec: Strict-level name-format
violations are reported as a field-specific error variant carrying the
offending name and the tag it appeared under. -/
inductive NameError where
  | Invalid (name : String) (tag : String)
deriving DecidableEq, Repr

/-- `svd_rs::SvdError` (declared outside the provided sources): the common
error enum into which `BuildError`, `enumeratedvalue::Error` and `NameError`
convert via `.into()` / `?`. -/
inductive SvdError where
  | Build (e : BuildError)
  | Ev (e : EnumeratedValueError)
  | Name (e : NameError)
deriving DecidableEq, Repr

/-- Modelled from the spec: the Strict name-format rule (`check_name`, defined
outside the provided sources) admits identifier-like names — nonempty, first
character a letter or underscore, remaining characters alphanumeric or
underscore — and rejects anything else with a name-format violation error. -/
def is_valid_name (s : String) : Bool :=
  match s.data with
  | [] => false
  | c :: cs => (c.isAlpha || c == '_') && cs.all (fun d => d.isAlphanum || d == '_')

/-- Modelled from the spec: `check_name` (defined outside the provided
sources) returns Ok when the name passes the identifier-like format rule and
a name-format violation error otherwise. -/
def check_name (name tag : String) : Except SvdError Unit :=
  if is_valid_name name then .ok () else .error (.Name (.Invalid name tag))

/-- Modelled from the spec: `EmptyToNone::empty_to_none` (defined outside the
provided sources) normalizes an optional string, mapping a string that
normalizes to none (the empty string) to `none` and leaving everything else
unchanged. -/
def empty_to_none : Option String → Option String
  | some s => if s.isEmpty then none else some s
  | none => none

/-- `EnumeratedValueBuilder` (enumeratedvalue.rs, lines 49-54). -/
structure EnumeratedValueBuilder where
  name : Option String
  description : Option String
  value : Option Nat
  is_default : Option Bool
deriving DecidableEq, Repr

/-- `EnumeratedValueBuilder::default()` (`#[derive(Default)]`): all fields
unset. -/
def EnumeratedValueBuilder.default : EnumeratedValueBuilder :=
  ⟨none, none, none, none⟩

/-- `impl From<EnumeratedValue> for EnumeratedValueBuilder`
(enumeratedvalue.rs, lines 56-65). -/
def EnumeratedValueBuilder.fromEnumeratedValue (e : EnumeratedValue) :
    EnumeratedValueBuilder :=
  ⟨some e.name, e.description, e.value, e.is_default⟩

/-- Fluent setter `EnumeratedValueBuilder::name` (enumeratedvalue.rs,
lines 69-72). -/
def EnumeratedValueBuilder.setName (b : EnumeratedValueBuilder) (v : String) :
    EnumeratedValueBuilder :=
  { b with name := some v }

/-- Fluent setter `EnumeratedValueBuilder::description` (enumeratedvalue.rs,
lines 74-77). -/
def EnumeratedValueBuilder.setDescription (b : EnumeratedValueBuilder)
    (v : Option String) : EnumeratedValueBuilder :=
  { b with description := v }

/-- Fluent setter `EnumeratedValueBuilder::value` (enumeratedvalue.rs,
lines 79-82). -/
def EnumeratedValueBuilder.setValue (b : EnumeratedValueBuilder)
    (v : Option Nat) : EnumeratedValueBuilder :=
  { b with value := v }

/-- Fluent setter `EnumeratedValueBuilder::is_default` (enumeratedvalue.rs,
lines 85-88). -/
def EnumeratedValueBuilder.setIsDefault (b : EnumeratedValueBuilder)
    (v : Option Bool) : EnumeratedValueBuilder :=
  { b with is_default := v }

/-- `EnumeratedValue::is_default` the method (enumeratedvalue.rs,
lines 106-108): `matches!(self.is_default, Some(true))`. Named `isDefault`
because the field accessor already takes the source name. -/
def EnumeratedValue.isDefault (e : EnumeratedValue) : Bool :=
  e.is_default == some true

/-- `EnumeratedValue::validate` (enumeratedvalue.rs, lines 134-147). The
`check_name(...)?` early return is written as an explicit match. -/
def EnumeratedValue.validate (e : EnumeratedValue) (lvl : ValidateLevel) :
    Except SvdError Unit :=
  if lvl.is_disabled then
    .ok ()
  else
    match (if lvl.is_strict then check_name e.name "name" else .ok ()) with
    | .error err => .error err
    | .ok _ =>
      match e.value.isSome, e.isDefault with
      | false, false => .error (.Ev .AbsentValue)
      | true, true =>
        if lvl.is_strict then .error (.Ev (.ValueAndDefault e.value)) else .ok ()
      | _, _ => .ok ()

/-- `EnumeratedValue::check_range` (enumeratedvalue.rs, lines 148-150): the
body is unconditionally `Ok(())`. -/
def EnumeratedValue.check_range (_e : EnumeratedValue) (_range : URange) :
    Except SvdError Unit :=
  .ok ()

/-- `EnumeratedValueBuilder::build` (enumeratedvalue.rs, lines 90-101). The
`?` early returns are written as explicit matches. -/
def EnumeratedValueBuilder.build (b : EnumeratedValueBuilder)
    (lvl : ValidateLevel) : Except SvdError EnumeratedValue :=
  match b.name with
  | none => .error (.Build (.Uninit "name"))
  | some n =>
    let ev : EnumeratedValue :=
      ⟨n, empty_to_none b.description, b.value, b.is_default⟩
    match ev.validate lvl with
    | .error e => .error e
    | .ok _ => .ok ev

/-- `EnumeratedValue::modify_from` (enumeratedvalue.rs, lines 114-132). The
Rust method mutates `&mut self` and returns `Result<(), SvdError>`; the
embedding passes the state explicitly and returns the final state of `self`
paired with the result (the state is mutated even when validation then
fails). -/
def EnumeratedValue.modify_from (e : EnumeratedValue)
    (builder : EnumeratedValueBuilder) (lvl : ValidateLevel) :
    EnumeratedValue × Except SvdError Unit :=
  let e1 := match builder.name with
    | some n => { e with name := n }
    | none => e
  let e2 := if builder.description.isSome then
      { e1 with description := empty_to_none builder.description }
    else e1
  let e3 := if builder.value.isSome then { e2 with value := builder.value } else e2
  let e4 := if builder.is_default.isSome then
      { e3 with is_default := builder.is_default }
    else e3
  (e4, e4.validate lvl)

/-- The output element tree (`Element` of the xml crate used by svd-encoder,
outside the provided sources). The spec fixes the interface the core uses:
create named element, set attribute, append child, merge another element's
attributes and children into self. -/
inductive Element where
  | mk (name : String) (attributes : List (String × String))
       (children : List Element)

/-- Tag name of an element. -/
def Element.name : Element → String
  | .mk n _ _ => n

/-- Attribute list of an element (name-value pairs). -/
def Element.attributes : Element → List (String × String)
  | .mk _ a _ => a

/-- Child list of an element. -/
def Element.children : Element → List Element
  | .mk _ _ c => c

/-- `Element::new(name)`: a fresh element with no attributes and no
children. -/
def Element.new (n : String) : Element :=
  .mk n [] []

/-- Generic overlay of a keyed list: the incoming list `r` wins on key
collision, entries of the base `l` whose key does not occur in `r` are kept
(in order) ahead of `r`. Shared by attribute merge (key = attribute name) and
child merge (key = child tag). -/
def mergeKeyed {α : Type} (key : α → String) (l r : List α) : List α :=
  l.filter (fun x => (r.find? (fun y => key y == key x)).isNone) ++ r

/-- Modelled from the spec: `ElementMerge::merge` (svd-encoder's lib.rs,
outside the provided sources) merges another element's attributes and children
into self; later merges overwrite earlier attributes and children of the same
tag, and earlier-declared entries win for anything not overwritten. -/
def Element.merge (l r : Element) : Element :=
  .mk l.name (mergeKeyed Prod.fst l.attributes r.attributes)
    (mergeKeyed Element.name l.children r.children)

/-- Attribute lookup by name: value of the first attribute named `k`. -/
def Element.getAttr (el : Element) (k : String) : Option String :=
  (el.attributes.find? (fun p => p.1 == k)).map Prod.snd

/-- Child lookup by tag: the first child whose tag is `t`. -/
def Element.getChildByTag (el : Element) (t : String) : Option Element :=
  el.children.find? (fun c => Element.name c == t)

/-- `EncodeError` of svd-encoder (outside the provided sources); its payload
is irrelevant to the embedded code, which only propagates it. -/
structure EncodeError where
  msg : String
deriving DecidableEq, Repr

/-- `svd_rs::Register`: a tagged union of a Single variant (info payload) and
an Array variant (info payload plus dimension info). The payload types are
parameters: the embedded `encode` never inspects them. -/
inductive Register (I D : Type) where
  | Single (info : I)
  | Array (info : I) (dim : D)

/-- `impl Encode for Register` (svd-encoder/src/register.rs, lines 5-19),
parameterized by the `encode` of the info payload (`RegisterInfo::encode`) and
of the dimension payload (`DimElement::encode`), which live outside the
provided sources. The `?` early returns are written as explicit matches;
the Array arm creates a fresh `"register"` element, merges the dimension
encoding first and the info encoding second. -/
def Register.encode {I D : Type} (encI : I → Except EncodeError Element)
    (encD : D → Except EncodeError Element) :
    Register I D → Except EncodeError Element
  | .Single info => encI info
  | .Array info dim =>
    match encD dim with
    | .error e => .error e
    | .ok de =>
      match encI info with
      | .error e => .error e
      | .ok ie => .ok (((Element.new "register").merge de).merge ie)

/-- Opaque node identity token (`roxmltree::NodeId`), used by the parser to
tag errors with the originating node's location. -/
structure NodeId where
  ident : Nat
deriving DecidableEq, Repr

/-- `svd_parser::SVDError` (declared outside the provided sources). The
embedded code matches on `EmptyTag` and constructs `MissingTag`; the variant
`Other` stands for every remaining variant of the source enum, which the
embedded code only propagates. -/
inductive SVDError where
  | EmptyTag (tag : String)
  | MissingTag (tag : String)
  | Other (msg : String)
deriving DecidableEq, Repr

/-- `svd_parser::SVDErrorAt`: an `SVDError` tagged with the identity of the
node it arose at. -/
structure SVDErrorAt where
  error : SVDError
  id : NodeId
deriving DecidableEq, Repr

/-- `SVDError::at(self, id)`: attach a node identity to an error. -/
def SVDError.atNode (e : SVDError) (i : NodeId) : SVDErrorAt :=
  ⟨e, i⟩

/-- The read-only input node tree (`roxmltree::Node`, outside the provided
sources). The spec fixes the interface the core consumes: find child by tag
name, get trimmed text content or `EmptyTag` error, enumerate children in
document order, obtain a location-identifying token. `text` is the node's raw
text content (`None` when the element holds no text). -/
inductive Node where
  | mk (id : NodeId) (tag : String) (text : Option String)
       (children : List Node)

/-- Identity token of a node. -/
def Node.id : Node → NodeId
  | .mk i _ _ _ => i

/-- Tag name of a node. -/
def Node.tag : Node → String
  | .mk _ t _ _ => t

/-- Raw text content of a node. -/
def Node.text : Node → Option String
  | .mk _ _ s _ => s

/-- Children of a node in document order. -/
def Node.children : Node → List Node
  | .mk _ _ _ c => c

/-- `ElementExt::get_child` (elementext.rs, lines 33-38): first child whose
tag name is `k`. -/
def Node.get_child (n : Node) (k : String) : Option Node :=
  n.children.find? (fun c => Node.tag c == k)

/-- `ElementExt::get_text` (elementext.rs, lines 71-80): the trimmed text
content, or an `EmptyTag` error carrying the node's own tag name and
identity when the node has no text. -/
def Node.get_text (n : Node) : Except SVDErrorAt String :=
  match n.text with
  | some s => .ok s.trim
  | none => .error ((SVDError.EmptyTag n.tag).atNode n.id)

/-- The inner match of `get_child_text_opt` (elementext.rs, lines 44-55):
an `EmptyTag` error is swallowed into `Ok(None)`, any other error propagates,
and a successful text becomes `Ok(Some _)`. -/
def swallowEmptyTag (r : Except SVDErrorAt String) :
    Except SVDErrorAt (Option String) :=
  match r with
  | .error e =>
    match e with
    | ⟨.EmptyTag _, _⟩ => .ok none
    | _ => .error e
  | .ok s => .ok (some s)

/-- `ElementExt::get_child_text_opt` (elementext.rs, lines 39-60). -/
def Node.get_child_text_opt (n : Node) (k : String) :
    Except SVDErrorAt (Option String) :=
  match n.get_child k with
  | some child => swallowEmptyTag child.get_text
  | none => .ok none

/-- `ElementExt::get_child_text` (elementext.rs, lines 61-68):
`get_child_text_opt(k)?.ok_or_else(|| MissingTag(k).at(self.id()))`. -/
def Node.get_child_text (n : Node) (k : String) : Except SVDErrorAt String :=
  match n.get_child_text_opt k with
  | .error e => .error e
  | .ok (some s) => .ok s
  | .ok none => .error ((SVDError.MissingTag k).atNode n.id)

/-- An `Option Bool` other than `some true` compares `== some true` to
`false`. -/
theorem beq_some_true_eq_false (o : Option Bool) (h : o ≠ some true) :
    (o == some true) = false := by
  cases o with
  | none => rfl
  | some b =>
    cases b with
    | false => rfl
    | true => exact absurd rfl h

/-- Claim C1: an `EnumeratedValue` with `value = None` and `is_default` not
`Some(true)` fails `validate` with `AbsentValue` at Weak and (when the name
passes the Strict name check) at Strict, and passes at Disabled; a builder
producing such a value fails `build` the same way; in particular building
with name `"foo"`, value `None`, `is_default` `None` at Strict fails with
`AbsentValue`. -/
theorem C1_absent_value (e : EnumeratedValue) (b : EnumeratedValueBuilder)
    (nm : String) (hv : e.value = none) (hd : e.is_default ≠ some true)
    (hbn : b.name = some nm) (hbv : b.value = none)
    (hbd : b.is_default ≠ some true) :
    e.validate .Disabled = .ok () ∧
    e.validate .Weak = .error (.Ev .AbsentValue) ∧
    (check_name e.name "name" = .ok () →
      e.validate .Strict = .error (.Ev .AbsentValue)) ∧
    b.build .Weak = .error (.Ev .AbsentValue) ∧
    (check_name nm "name" = .ok () →
      b.build .Strict = .error (.Ev .AbsentValue)) ∧
    (EnumeratedValueBuilder.default.setName "foo").build .Strict
      = .error (.Ev .AbsentValue) := by
  have hde := beq_some_true_eq_false e.is_default hd
  have hbde := beq_some_true_eq_false b.is_default hbd
  refine ⟨rfl, ?_, ?_, ?_, ?_, ?_⟩
  · simp [EnumeratedValue.validate, ValidateLevel.is_disabled,
      ValidateLevel.is_strict, hv, EnumeratedValue.isDefault, hde]
  · intro hn
    simp [EnumeratedValue.validate, ValidateLevel.is_disabled,
      ValidateLevel.is_strict, hn, hv, EnumeratedValue.isDefault, hde]
  · simp [EnumeratedValueBuilder.build, hbn, EnumeratedValue.validate,
      ValidateLevel.is_disabled, ValidateLevel.is_strict, hbv,
      EnumeratedValue.isDefault, hbde]
  · intro hn
    simp [EnumeratedValueBuilder.build, hbn, EnumeratedValue.validate,
      ValidateLevel.is_disabled, ValidateLevel.is_strict, hn, hbv,
      EnumeratedValue.isDefault, hbde]
  · rfl

/-- Witness for C1 at name `"foo"`, value `None`, `is_default` `None`. -/
theorem C1_absent_value_witness :
    (⟨"foo", none, none, none⟩ : EnumeratedValue).validate .Weak
      = .error (.Ev .AbsentValue) ∧
    (EnumeratedValueBuilder.default.setName "foo").build .Strict
      = .error (.Ev .AbsentValue) :=
  ⟨(C1_absent_value ⟨"foo", none, none, none⟩
      (EnumeratedValueBuilder.default.setName "foo") "foo" rfl
      (fun h => Option.noConfusion h) rfl rfl
      (fun h => Option.noConfusion h)).2.1,
   (C1_absent_value ⟨"foo", none, none, none⟩
      (EnumeratedValueBuilder.default.setName "foo") "foo" rfl
      (fun h => Option.noConfusion h) rfl rfl
      (fun h => Option.noConfusion h)).2.2.2.2.2⟩

/-- Claim C2: an `EnumeratedValue` carrying both `value = Some v` and
`is_default = Some(true)` (name passing the Strict name check) fails
`validate(Strict)` with `ValueAndDefault(Some v)` but passes
`validate(Weak)`; a builder holding the same fields fails `build(Strict)`
with `ValueAndDefault(Some v)` and succeeds at `build(Weak)`; in particular
with value `Some 3`. -/
theorem C2_value_and_default (e : EnumeratedValue) (b : EnumeratedValueBuilder)
    (v : Nat) (nm : String) (hv : e.value = some v)
    (hd : e.is_default = some true) (hn : check_name e.name "name" = .ok ())
    (hbn : b.name = some nm) (hbnn : check_name nm "name" = .ok ())
    (hbv : b.value = some v) (hbd : b.is_default = some true) :
    e.validate .Strict = .error (.Ev (.ValueAndDefault (some v))) ∧
    e.validate .Weak = .ok () ∧
    b.build .Strict = .error (.Ev (.ValueAndDefault (some v))) ∧
    b.build .Weak = .ok ⟨nm, empty_to_none b.description, some v, some true⟩ ∧
    (((EnumeratedValueBuilder.default.setName "foo").setValue
        (some 3)).setIsDefault (some true)).build .Strict
      = .error (.Ev (.ValueAndDefault (some 3))) ∧
    (((EnumeratedValueBuilder.default.setName "foo").setValue
        (some 3)).setIsDefault (some true)).build .Weak
      = .ok ⟨"foo", none, some 3, some true⟩ := by
  refine ⟨?_, ?_, ?_, ?_, rfl, rfl⟩
  · simp [EnumeratedValue.validate, ValidateLevel.is_disabled,
      ValidateLevel.is_strict, hn, hv, hd, EnumeratedValue.isDefault]
  · simp [EnumeratedValue.validate, ValidateLevel.is_disabled,
      ValidateLevel.is_strict, hv, hd, EnumeratedValue.isDefault]
  · simp [EnumeratedValueBuilder.build, hbn, EnumeratedValue.validate,
      ValidateLevel.is_disabled, ValidateLevel.is_strict, hbnn, hbv, hbd,
      EnumeratedValue.isDefault]
  · simp [EnumeratedValueBuilder.build, hbn, EnumeratedValue.validate,
      ValidateLevel.is_disabled, ValidateLevel.is_strict, hbv, hbd,
      EnumeratedValue.isDefault]

/-- Witness for C2 at name `"FOO"`, value `Some 3`, `is_default`
`Some(true)`. -/
theorem C2_value_and_default_witness :
    (⟨"FOO", none, some 3, some true⟩ : EnumeratedValue).validate .Strict
      = .error (.Ev (.ValueAndDefault (some 3))) ∧
    (⟨"FOO", none, some 3, some true⟩ : EnumeratedValue).validate .Weak
      = .ok () :=
  ⟨(C2_value_and_default ⟨"FOO", none, some 3, some true⟩
      (((EnumeratedValueBuilder.default.setName "FOO").setValue
        (some 3)).setIsDefault (some true)) 3 "FOO" rfl rfl rfl rfl rfl rfl
      rfl).1,
   (C2_value_and_default ⟨"FOO", none, some 3, some true⟩
      (((EnumeratedValueBuilder.default.setName "FOO").setValue
        (some 3)).setIsDefault (some true)) 3 "FOO" rfl rfl rfl rfl rfl rfl
      rfl).2.1⟩

/-- Claim C3: validation monotonicity for `EnumeratedValue` — whenever
`validate(Strict)` succeeds, `validate(Weak)` and `validate(Disabled)`
succeed as well. -/
theorem C3_validate_monotonic (e : EnumeratedValue)
    (h : e.validate .Strict = .ok ()) :
    e.validate .Weak = .ok () ∧ e.validate .Disabled = .ok () := by
  refine ⟨?_, rfl⟩
  cases hc : check_name e.name "name" with
  | error err =>
    simp [EnumeratedValue.validate, ValidateLevel.is_disabled,
      ValidateLevel.is_strict, hc] at h
  | ok u =>
    cases hv : e.value.isSome <;> cases hd : e.isDefault <;>
      simp [EnumeratedValue.validate, ValidateLevel.is_disabled,
        ValidateLevel.is_strict, hc, hv, hd] at h ⊢

/-- Witness for C3 at an `EnumeratedValue` that passes Strict validation. -/
theorem C3_validate_monotonic_witness :
    (⟨"A", none, some 1, none⟩ : EnumeratedValue).validate .Weak = .ok () ∧
    (⟨"A", none, some 1, none⟩ : EnumeratedValue).validate .Disabled
      = .ok () :=
  C3_validate_monotonic ⟨"A", none, some 1, none⟩ rfl

/-- Claim C8: a builder whose `name` is unset fails `build` with
`Uninitialized("name")` at every validation level, Disabled included. -/
theorem C8_name_required (b : EnumeratedValueBuilder) (lvl : ValidateLevel)
    (h : b.name = none) :
    b.build lvl = .error (.Build (.Uninit "name")) := by
  simp [EnumeratedValueBuilder.build, h]

/-- Witness for C8: the empty builder at Disabled level. -/
theorem C8_name_required_witness :
    EnumeratedValueBuilder.default.build .Disabled
      = .error (.Build (.Uninit "name")) :=
  C8_name_required EnumeratedValueBuilder.default .Disabled rfl

/-- Counterexample to claim C4: with value `5` and range `[0, 1)` — `5` is
outside the range — `check_range` returns `Ok(())`, not the `OutOfRange`
error the claim requires. -/
theorem C4_check_range_counterexample :
    ¬ (5 < 1) ∧
    (⟨"foo", none, some 5, none⟩ : EnumeratedValue).check_range ⟨0, 1⟩
      ≠ .error (.Ev (.OutOfRange 5 ⟨0, 1⟩)) :=
  ⟨by decide, fun h => Except.noConfusion h⟩

/-- Claim C4 amended: `check_range` is a no-op stub — it returns `Ok(())`
for every `EnumeratedValue` and every range, whether or not the value lies
inside the range; the `OutOfRange` error is never produced by it. -/
theorem C4_check_range_noop (e : EnumeratedValue) (r : URange) :
    e.check_range r = .ok () :=
  rfl

/-- Claim C5: round-trip edit — for an `EnumeratedValue` whose description
survives `empty_to_none` normalization and which validates at `lvl`,
rebuilding from `EnumeratedValueBuilder::from(e)` at `lvl` returns `Ok` of a
value equal to `e`. -/
theorem C5_roundtrip (e : EnumeratedValue) (lvl : ValidateLevel)
    (hdesc : empty_to_none e.description = e.description)
    (hval : e.validate lvl = .ok ()) :
    (EnumeratedValueBuilder.fromEnumeratedValue e).build lvl = .ok e := by
  have hev : (⟨e.name, empty_to_none e.description, e.value, e.is_default⟩
      : EnumeratedValue) = e := by
    rw [hdesc]
  simp only [EnumeratedValueBuilder.build,
    EnumeratedValueBuilder.fromEnumeratedValue, hev, hval]

/-- Witness for C5 at a concrete `EnumeratedValue` validating at Strict. -/
theorem C5_roundtrip_witness :
    (EnumeratedValueBuilder.fromEnumeratedValue
        ⟨"A", some "d", some 1, none⟩).build .Strict
      = .ok ⟨"A", some "d", some 1, none⟩ :=
  C5_roundtrip ⟨"A", some "d", some 1, none⟩ .Strict rfl rfl

/-- Counterexample to claim C6: with a builder holding
`description = Some("")`, `modify_from` returns `Ok` yet the resulting
description is `None`, not the builder's value `Some("")` — the assignment
passes through `empty_to_none`. -/
theorem C6_overlay_counterexample :
    ((⟨"A", some "d", some 3, none⟩ : EnumeratedValue).modify_from
        (EnumeratedValueBuilder.default.setDescription (some "")) .Weak).2
      = .ok () ∧
    ((⟨"A", some "d", some 3, none⟩ : EnumeratedValue).modify_from
        (EnumeratedValueBuilder.default.setDescription (some "")) .Weak).1.description
      ≠ some "" :=
  ⟨rfl, fun h => Option.noConfusion h⟩

/-- Claim C6 amended: `modify_from` leaves every field whose builder entry is
`None` unchanged; every field whose builder entry is `Some` takes the
builder's value, except `description`, which takes the builder's value
normalized by `empty_to_none` (so `Some("")` becomes `None`). -/
theorem C6_overlay (e : EnumeratedValue) (b : EnumeratedValueBuilder)
    (lvl : ValidateLevel) :
    (b.name = none → (e.modify_from b lvl).1.name = e.name) ∧
    (∀ n, b.name = some n → (e.modify_from b lvl).1.name = n) ∧
    (b.description = none →
      (e.modify_from b lvl).1.description = e.description) ∧
    (b.description.isSome →
      (e.modify_from b lvl).1.description = empty_to_none b.description) ∧
    (b.value = none → (e.modify_from b lvl).1.value = e.value) ∧
    (b.value.isSome → (e.modify_from b lvl).1.value = b.value) ∧
    (b.is_default = none →
      (e.modify_from b lvl).1.is_default = e.is_default) ∧
    (b.is_default.isSome →
      (e.modify_from b lvl).1.is_default = b.is_default) := by
  rcases b with ⟨bn, bd, bv, bi⟩
  cases bn <;> cases bd <;> cases bv <;> cases bi <;>
    simp [EnumeratedValue.modify_from]

/-- Counterexample to claim C7: starting from `value = Some(3)` and applying
`modify_from` with a builder on which `.value(None)` was called, the value
stays `Some(3)` — it is not cleared to `None` as the claim requires. -/
theorem C7_clear_counterexample :
    ((⟨"A", none, some 3, none⟩ : EnumeratedValue).modify_from
        (EnumeratedValueBuilder.default.setValue none) .Weak).1.value
      = some 3 ∧
    (some 3 : Option Nat) ≠ none :=
  ⟨rfl, fun h => Option.noConfusion h⟩

/-- Claim C7 amended: passing `None` through a fluent setter makes the
builder's field `None`, and `modify_from` then leaves the corresponding field
of the entity untouched — an explicitly cleared field is indistinguishable
from a never-set one, so `modify_from` cannot clear a field. -/
theorem C7_setter_none_keeps (e : EnumeratedValue)
    (b : EnumeratedValueBuilder) (lvl : ValidateLevel) :
    (e.modify_from (b.setValue none) lvl).1.value = e.value ∧
    (e.modify_from (b.setDescription none) lvl).1.description
      = e.description ∧
    (e.modify_from (b.setIsDefault none) lvl).1.is_default = e.is_default := by
  rcases b with ⟨bn, bd, bv, bi⟩
  cases bn <;> cases bd <;> cases bv <;> cases bi <;>
    simp [EnumeratedValue.modify_from, EnumeratedValueBuilder.setValue,
      EnumeratedValueBuilder.setDescription, EnumeratedValueBuilder.setIsDefault]

/-- Filtering with a predicate that keeps every hit of `find?` does not
change the result of `find?`. -/
theorem find?_filter_keep {α : Type} (p q : α → Bool)
    (h : ∀ x, p x = true → q x = true) :
    ∀ l : List α, (l.filter q).find? p = l.find? p := by
  intro l
  induction l with
  | nil => rfl
  | cons a t ih =>
    cases hq : q a with
    | false =>
      have hp : p a = false := by
        cases hp : p a with
        | false => rfl
        | true => rw [h a hp] at hq; exact Bool.noConfusion hq
      rw [List.filter_cons_of_neg (by simp [hq]), ih,
        List.find?_cons_of_neg _ (by simp [hp])]
    | true =>
      rw [List.filter_cons_of_pos hq]
      cases hp : p a with
      | false =>
        rw [List.find?_cons_of_neg _ (by simp [hp]),
          List.find?_cons_of_neg _ (by simp [hp]), ih]
      | true =>
        rw [List.find?_cons_of_pos _ hp, List.find?_cons_of_pos _ hp]

/-- Lookup in a keyed overlay: searching `mergeKeyed key l r` for key `k`
finds `r`'s entry when `r` has one (incoming wins on collision) and `l`'s
entry otherwise (earlier-declared wins when not overwritten). -/
theorem find?_mergeKeyed {α : Type} (key : α → String) (l r : List α)
    (k : String) :
    (mergeKeyed key l r).find? (fun x => key x == k)
      = ((r.find? (fun x => key x == k)).or
          (l.find? (fun x => key x == k))) := by
  unfold mergeKeyed
  rw [List.find?_append]
  cases hr : r.find? (fun x => key x == k) with
  | some y =>
    have hnone :
        (l.filter (fun x => (r.find? (fun y => key y == key x)).isNone)).find?
          (fun x => key x == k) = none := by
      rw [List.find?_eq_none]
      intro x hx hpx
      rw [List.mem_filter] at hx
      have hk : key x = k := eq_of_beq hpx
      have hkeep := hx.2
      simp only [hk, hr] at hkeep
      exact Bool.noConfusion hkeep
    rw [hnone]
    rfl
  | none =>
    have hsame :
        (l.filter (fun x => (r.find? (fun y => key y == key x)).isNone)).find?
          (fun x => key x == k) = l.find? (fun x => key x == k) := by
      apply find?_filter_keep
      intro x hpx
      have hk : key x = k := eq_of_beq hpx
      simp only [hk, hr, Option.isNone_none]
    rw [hsame]
    cases l.find? (fun x => key x == k) <;> rfl

/-- Claim C9: `Register::encode` — the Single variant delegates to the info
payload's encode; the Array variant creates a fresh `"register"` element,
merges the dimension encoding first and the info encoding second, so on
collision (same attribute name, same child tag) the info encoding wins while
anything not overwritten keeps the dimension encoding's entry; an error from
either inner encode propagates. -/
theorem C9_register_encode {I D : Type}
    (encI : I → Except EncodeError Element)
    (encD : D → Except EncodeError Element) (info : I) (dim : D) :
    (Register.Single info).encode encI encD = encI info ∧
    (∀ err, encD dim = .error err →
      (Register.Array info dim).encode encI encD = .error err) ∧
    (∀ de err, encD dim = .ok de → encI info = .error err →
      (Register.Array info dim).encode encI encD = .error err) ∧
    (∀ de ie, encD dim = .ok de → encI info = .ok ie →
      (Register.Array info dim).encode encI encD
        = .ok (((Element.new "register").merge de).merge ie) ∧
      (((Element.new "register").merge de).merge ie).name = "register" ∧
      (∀ k, (((Element.new "register").merge de).merge ie).getAttr k
        = ((ie.getAttr k).or (de.getAttr k))) ∧
      (∀ t, (((Element.new "register").merge de).merge ie).getChildByTag t
        = ((ie.getChildByTag t).or (de.getChildByTag t)))) := by
  refine ⟨rfl, ?_, ?_, ?_⟩
  · intro err h
    simp [Register.encode, h]
  · intro de err h1 h2
    simp [Register.encode, h1, h2]
  · intro de ie h1 h2
    refine ⟨by simp [Register.encode, h1, h2], rfl, ?_, ?_⟩
    · intro k
      have hattrs :
          (((Element.new "register").merge de).merge ie).attributes
            = mergeKeyed Prod.fst de.attributes ie.attributes := rfl
      simp only [Element.getAttr, hattrs, find?_mergeKeyed, Option.map_or']
    · intro t
      have hkids :
          (((Element.new "register").merge de).merge ie).children
            = mergeKeyed Element.name de.children ie.children := rfl
      simp only [Element.getChildByTag, hkids, find?_mergeKeyed]

/-- A concrete dimension-block encoding used to witness C9: one attribute
shared with the info encoding, one not, likewise for children. -/
def dimElem : Element :=
  .mk "dim" [("shared", "old"), ("dimOnly", "4")]
    [.mk "name" [] [], .mk "dimIncrement" [] []]

/-- A concrete info encoding used to witness C9. -/
def infoElem : Element :=
  .mk "info" [("shared", "new"), ("infoOnly", "rw")]
    [.mk "name" [("v", "i")] [], .mk "field" [] []]

/-- Witness for C9 at a concrete Array register whose two inner encodings
collide on attribute `"shared"` and child tag `"name"`: the info encoding
wins there, the dimension-only entries survive. -/
theorem C9_register_encode_witness :
    (Register.Single () : Register Unit Unit).encode
        (fun _ => .ok infoElem) (fun _ => .ok dimElem) = .ok infoElem ∧
    (Register.Array () () : Register Unit Unit).encode
        (fun _ => .ok infoElem) (fun _ => .ok dimElem)
      = .ok (((Element.new "register").merge dimElem).merge infoElem) ∧
    (((Element.new "register").merge dimElem).merge infoElem).name
      = "register" ∧
    (((Element.new "register").merge dimElem).merge infoElem).getAttr "shared"
      = some "new" ∧
    (((Element.new "register").merge dimElem).merge infoElem).getAttr "dimOnly"
      = some "4" ∧
    (((Element.new "register").merge dimElem).merge infoElem).getChildByTag "name"
      = some (.mk "name" [("v", "i")] []) ∧
    (((Element.new "register").merge dimElem).merge infoElem).getChildByTag
        "dimIncrement" = some (.mk "dimIncrement" [] []) := by
  have h := C9_register_encode (fun _ : Unit => .ok infoElem)
    (fun _ : Unit => .ok dimElem) () ()
  obtain ⟨h1, -, -, h4⟩ := h
  obtain ⟨henc, hname, hattr, hkid⟩ := h4 dimElem infoElem rfl rfl
  refine ⟨h1, henc, hname, ?_, ?_, ?_, ?_⟩
  · rw [hattr "shared"]; rfl
  · rw [hattr "dimOnly"]; rfl
  · rw [hkid "name"]; rfl
  · rw [hkid "dimIncrement"]; rfl

/-- Claim C10: `get_child_text_opt(k)` returns `Ok(None)` both when no
child tagged `k` exists and when the child exists but has no text (the
`EmptyTag` error of `get_text` is swallowed; any other error propagates);
consequently `get_child_text(k)` on a present-but-empty child fails with
`MissingTag(k)` tagged with the parent's identity, never with `EmptyTag`. -/
theorem C10_get_child_text (n : Node) (k : String) :
    (n.get_child k = none → n.get_child_text_opt k = .ok none) ∧
    (∀ c, n.get_child k = some c → Node.text c = none →
      n.get_child_text_opt k = .ok none ∧
      n.get_child_text k
        = .error ((SVDError.MissingTag k).atNode n.id)) ∧
    (∀ e : SVDErrorAt, (∀ t, e.error ≠ .EmptyTag t) →
      swallowEmptyTag (.error e) = .error e) := by
  refine ⟨?_, ?_, ?_⟩
  · intro h
    simp [Node.get_child_text_opt, h]
  · intro c h1 h2
    have hopt : n.get_child_text_opt k = .ok none := by
      simp [Node.get_child_text_opt, h1, Node.get_text, h2, swallowEmptyTag,
        SVDError.atNode]
    exact ⟨hopt, by simp [Node.get_child_text, hopt]⟩
  · intro e he
    rcases e with ⟨err, i⟩
    cases err with
    | EmptyTag t => exact absurd rfl (he t)
    | MissingTag t => rfl
    | Other m => rfl

/-- Witness for C10 at a parent with one empty child `"kid"` and no child
`"missing"`, and at a non-EmptyTag error. -/
theorem C10_get_child_text_witness :
    (Node.mk ⟨0⟩ "parent" none [Node.mk ⟨1⟩ "kid" none []]).get_child_text_opt
        "kid" = .ok none ∧
    (Node.mk ⟨0⟩ "parent" none [Node.mk ⟨1⟩ "kid" none []]).get_child_text
        "kid" = .error ⟨.MissingTag "kid", ⟨0⟩⟩ ∧
    (Node.mk ⟨0⟩ "parent" none [Node.mk ⟨1⟩ "kid" none []]).get_child_text_opt
        "missing" = .ok none ∧
    swallowEmptyTag (.error ⟨.Other "x", ⟨5⟩⟩) = .error ⟨.Other "x", ⟨5⟩⟩ := by
  have h := C10_get_child_text
    (Node.mk ⟨0⟩ "parent" none [Node.mk ⟨1⟩ "kid" none []]) "kid"
  have hm := C10_get_child_text
    (Node.mk ⟨0⟩ "parent" none [Node.mk ⟨1⟩ "kid" none []]) "missing"
  have hpair := h.2.1 (Node.mk ⟨1⟩ "kid" none []) rfl rfl
  exact ⟨hpair.1, hpair.2, hm.1 rfl,
    h.2.2 ⟨.Other "x", ⟨5⟩⟩ (fun t hh => SVDError.noConfusion hh)⟩
